import Mathlib

/-!
Shallow embedding of the turtle-to-scene compiler of this repository
(src/turtle/src/lib.rs together with the command AST in
src/uturtle/src/ast.rs).

Conventions of the embedding:
* `f32` values are modelled as real numbers; Rust's floating-point `%`
  (a truncated remainder, `fmod`) is modelled exactly by `fmod` below.
* The geometry and scene types that the interpreter uses
  (`RectF32`, `Outline`, `OutlineStrokeToFill`, `Scene`, `Paint`,
  `PathObject` from the pathfinder_geometry / pathfinder_renderer crates)
  are not part of this repository's sources; they are modelled from the
  spec, as marked in their doc comments.
* The `u32` path-object identifier counter is modelled as a natural
  number (it only ever increases by one per created object); the source
  stores the decimal string of the counter in the `PathObject`, which is
  an injective image of the modelled value.
* The `eprintln!` calls on stack underflow are side effects outside the
  returned value and are not modelled; the underflow branches themselves
  are modelled exactly (they are no-ops on the state).
-/

noncomputable section

/-- Truncation toward zero, the rounding used by Rust's `%` on floats. -/
def fTrunc (x : ℝ) : ℤ := if 0 ≤ x then ⌊x⌋ else ⌈x⌉

/-- Rust's `%` on floats: the truncated remainder `x - y * trunc (x / y)`. -/
def fmod (x y : ℝ) : ℝ := x - y * (fTrunc (x / y) : ℝ)

/-- Heading normalization as written in the `Turn` and `Direction` handlers:
`((d % 360.0) + 360.0) % 360.0` (src/turtle/src/lib.rs:148-151). -/
def normalizeHeading (d : ℝ) : ℝ := fmod (fmod d 360 + 360) 360

/-- Angle conversion `f32::to_radians`: multiply by pi over 180. -/
def toRadians (d : ℝ) : ℝ := d * (Real.pi / 180)

/-- HAIRLINE_STROKE_WIDTH (src/turtle/src/lib.rs:31). -/
def HAIRLINE_STROKE_WIDTH : ℝ := 0.0333

/-- Modelled from the spec: `RectF32` of pathfinder_geometry (not under src/),
an axis-aligned rectangle given by its origin corner `(ox, oy)` and its
lower-right corner `(lx, ly)`. -/
@[ext]
structure Rect where
  ox : ℝ
  oy : ℝ
  lx : ℝ
  ly : ℝ

/-- Degenerate zero-size rectangle at the origin. -/
def Rect.zero : Rect := ⟨0, 0, 0, 0⟩

/-- Modelled from the spec: `RectF32::union_point` (not under src/), the
smallest rectangle covering `r` and the point `(x, y)`. -/
def Rect.unionPoint (r : Rect) (x y : ℝ) : Rect :=
  ⟨min r.ox x, min r.oy y, max r.lx x, max r.ly y⟩

/-- Modelled from the spec: `RectF32::union_rect` (not under src/), the
smallest rectangle covering both rectangles. -/
def Rect.unionRect (r s : Rect) : Rect :=
  ⟨min r.ox s.ox, min r.oy s.oy, max r.lx s.lx, max r.ly s.ly⟩

/-- Rectangle inclusion: `r` is covered by `s`. -/
def Rect.subset (r s : Rect) : Prop :=
  s.ox ≤ r.ox ∧ s.oy ≤ r.oy ∧ r.lx ≤ s.lx ∧ r.ly ≤ s.ly

/-- Membership of a point in a rectangle. -/
def Rect.containsPoint (r : Rect) (x y : ℝ) : Prop :=
  r.ox ≤ x ∧ x ≤ r.lx ∧ r.oy ≤ y ∧ y ≤ r.ly

/-- Modelled from the spec: a `Paint` (pathfinder_renderer, not under src/) is
an RGBA color; RGB comes from the program, alpha is fixed opaque. -/
@[ext]
structure Paint where
  r : Nat
  g : Nat
  b : Nat
  a : Nat
deriving DecidableEq

/-- Paint::from_rgb via the PaintExt trait (src/turtle/src/lib.rs:261-272). -/
def Paint.fromRgb (r g b : Nat) : Paint := ⟨r, g, b, 255⟩

/-- Paint::from_pencolor via the PaintExt trait (src/turtle/src/lib.rs:256-259). -/
def Paint.fromPencolor (c : Nat × Nat × Nat) : Paint := Paint.fromRgb c.1 c.2.1 c.2.2

/-- Modelled from the spec: the kind tag of a path object (pathfinder_renderer,
not under src/); the interpreter only ever emits stroke-derived objects. -/
inductive PathObjectKind where
  | fill
  | stroke
deriving DecidableEq

/-- Modelled from the spec: a `PathObject` (pathfinder_renderer, not under
src/): an immutable record of a closed outline (here the vertex list of the
stroke quadrilateral), a paint reference (index into the scene's paint list),
the identifier assigned at creation, and the kind tag. -/
@[ext]
structure PathObject where
  outline : List (ℝ × ℝ)
  paint : Nat
  id : Nat
  kind : PathObjectKind

/-- Modelled from the spec: the `Scene` aggregate (pathfinder_renderer, not
under src/): ordered path objects, deduplicated paints, accumulated bounds,
and the view box. -/
@[ext]
structure Scene where
  objects : List PathObject
  paints : List Paint
  bounds : Rect
  viewBox : Rect

/-- Modelled from the spec: `Scene::new`, an empty scene with degenerate
bounds and view box. -/
def Scene.new : Scene := ⟨[], [], Rect.zero, Rect.zero⟩

/-- Modelled from the spec: `Scene::push_paint` (not under src/) deduplicates
by exact color value; an already-registered color returns its existing index,
otherwise the paint is appended and its fresh index is returned. -/
def Scene.pushPaint (s : Scene) (p : Paint) : Nat × Scene :=
  match s.paints.findIdx? (fun q => decide (q = p)) with
  | some i => (i, s)
  | none => (s.paints.length, { s with paints := s.paints ++ [p] })

/-- TurtleState (src/turtle/src/lib.rs:41-52).  The `positions` and
`directions` vectors are LIFO stacks; the head of the list is the top. -/
@[ext]
structure TurtleState where
  posX : ℝ
  posY : ℝ
  direction : ℝ
  penDown : Bool
  positions : List (ℝ × ℝ)
  directions : List ℝ
  penWidth : ℝ
  penColor : Nat × Nat × Nat
  bounds : Rect

/-- TurtleState::new (src/turtle/src/lib.rs:54-68). -/
def TurtleState.new : TurtleState :=
  { posX := 0, posY := 0, direction := 0, penDown := false, positions := [],
    directions := [], penWidth := 1, penColor := (0, 0, 0), bounds := Rect.zero }

/-- BuildResultFlags (src/turtle/src/lib.rs:70-78): a u16 bit set with three
defined flags, at bits 0, 1 and 2. -/
@[ext]
structure BuildResultFlags where
  errUnhandledCommand : Bool
  errPoplocEmptyStack : Bool
  errPoprotEmptyStack : Bool
deriving DecidableEq

/-- BuildResultFlags::empty. -/
def BuildResultFlags.empty : BuildResultFlags := ⟨false, false, false⟩

/-- BuildResultFlags::is_empty. -/
def BuildResultFlags.isEmpty (f : BuildResultFlags) : Bool :=
  decide (f = BuildResultFlags.empty)

/-- The u16 value of the bit set (`bits()` of the bitflags type). -/
def BuildResultFlags.bits (f : BuildResultFlags) : Nat :=
  (if f.errUnhandledCommand then 1 else 0) +
    (if f.errPoplocEmptyStack then 2 else 0) +
    (if f.errPoprotEmptyStack then 4 else 0)

/-- NAMES of the flags, in bit order (src/turtle/src/lib.rs:102-106). -/
def NAMES : List String :=
  ["unhandled command", "poploc on empty stack", "poprot on empty stack"]

/-- Display for BuildResultFlags (src/turtle/src/lib.rs:80-108): the empty
set renders as the empty string; otherwise the loop walks the names in bit
order, skips clear bits, and writes a comma-space separator before every name
but the first. -/
def BuildResultFlags.fmt (f : BuildResultFlags) : String :=
  if f.isEmpty then ""
  else
    (NAMES.enum.foldl
      (fun acc p =>
        if (f.bits >>> p.1) % 2 = 0 then acc
        else if acc.1 then (false, acc.2 ++ p.2)
        else (acc.1, acc.2 ++ ", " ++ p.2))
      (true, "")).2

/-- Specification-side rendering of the flag set: the names of exactly the
triggered flags, in the fixed canonical order, joined by a comma-space
separator, the empty string when no flag is set.  Stated from the spec's
words, to be compared with `BuildResultFlags.fmt` above. -/
def canonicalRendering (f : BuildResultFlags) : String :=
  String.intercalate ", "
    (((NAMES.zip
          [f.errUnhandledCommand, f.errPoplocEmptyStack, f.errPoprotEmptyStack]).filter
        (fun p => p.2)).map (fun p => p.1))

/-- Command (src/uturtle/src/ast.rs:14-30). -/
inductive Command where
  | reset
  | penUp
  | penDown
  | turn (deg : ℝ)
  | move (unit : ℝ)
  | direction (deg : ℝ)
  | pushLoc
  | popLoc
  | pushRot
  | popRot
  | go (x y : ℝ)
  | goX (x : ℝ)
  | goY (y : ℝ)
  | penWidth (w : ℝ)
  | penColor (r g b : Nat)

/-- Discriminator for the `Reset` variant. -/
def Command.isReset : Command → Bool
  | .reset => true
  | _ => false

/-- BuiltTurtle (src/turtle/src/lib.rs:33-39). -/
@[ext]
structure BuiltTurtle where
  scene : Scene
  resultFlags : BuildResultFlags
  state : TurtleState
  idCounter : Nat

/-- The initial BuiltTurtle value built in from_ast (src/turtle/src/lib.rs:111-117). -/
def BuiltTurtle.new : BuiltTurtle :=
  { scene := Scene.new, resultFlags := BuildResultFlags.empty,
    state := TurtleState.new, idCounter := 0 }

/-- BuiltTurtle::update_bounds (src/turtle/src/lib.rs:133-136): grow the
turtle-state bounds by the point, then grow the scene bounds by the updated
state bounds. -/
def BuiltTurtle.updateBounds (b : BuiltTurtle) (x y : ℝ) : BuiltTurtle :=
  let sb := b.state.bounds.unionPoint x y
  { b with state := { b.state with bounds := sb },
           scene := { b.scene with bounds := b.scene.bounds.unionRect sb } }

/-- Modelled from the spec: the stroke-to-fill outline of one line segment
(`OutlineStrokeToFill` is not under src/): offset the segment symmetrically
perpendicular to its direction by half the stroke width and close the
resulting quadrilateral. -/
def strokeQuad (x1 y1 x2 y2 w : ℝ) : List (ℝ × ℝ) :=
  let dx := x2 - x1
  let dy := y2 - y1
  let len := Real.sqrt (dx * dx + dy * dy)
  let nx := -dy / len * (w / 2)
  let ny := dx / len * (w / 2)
  [(x1 + nx, y1 + ny), (x2 + nx, y2 + ny), (x2 - nx, y2 - ny), (x1 - nx, y1 - ny)]

/-- Modelled from the spec: the bounding rectangle of an outline
(`Outline::bounds` is not under src/), the union of its vertices. -/
def outlineBounds : List (ℝ × ℝ) → Rect
  | [] => Rect.zero
  | p :: ps => ps.foldl (fun r q => r.unionPoint q.1 q.2) ⟨p.1, p.2, p.1, p.2⟩

/-- BuiltTurtle::line_to (src/turtle/src/lib.rs:218-247): register the pen
color as a paint, stroke the segment at width
`max pen_width HAIRLINE_STROKE_WIDTH`, grow the scene bounds by the outline's
bounds, and append a new PathObject carrying the next identifier. -/
def BuiltTurtle.lineTo (b : BuiltTurtle) (x1 y1 x2 y2 : ℝ) : BuiltTurtle :=
  let ps := b.scene.pushPaint (Paint.fromPencolor b.state.penColor)
  let strokeWidth := max b.state.penWidth HAIRLINE_STROKE_WIDTH
  let outline := strokeQuad x1 y1 x2 y2 strokeWidth
  let scene1 := { ps.2 with bounds := ps.2.bounds.unionRect (outlineBounds outline) }
  let newId := b.idCounter + 1
  { b with idCounter := newId,
           scene := { scene1 with objects := scene1.objects ++
             [{ outline := outline, paint := ps.1, id := newId,
                kind := PathObjectKind.stroke }] } }

/-- One iteration of the command loop of BuiltTurtle::process_turtle
(src/turtle/src/lib.rs:138-213). -/
def BuiltTurtle.processCmd (b : BuiltTurtle) : Command → BuiltTurtle
  | .reset =>
      { b with state := TurtleState.new, scene := Scene.new,
               resultFlags := BuildResultFlags.empty }
  | .penUp => { b with state := { b.state with penDown := false } }
  | .penDown => { b with state := { b.state with penDown := true } }
  | .turn deg =>
      { b with state := { b.state with direction := normalizeHeading (b.state.direction + deg) } }
  | .direction deg =>
      { b with state := { b.state with direction := normalizeHeading deg } }
  | .move unit =>
      let s := Real.sin (toRadians b.state.direction)
      let c := Real.cos (toRadians b.state.direction)
      let toX := b.state.posX + unit * c
      let toY := b.state.posY + unit * s
      let b1 :=
        if b.state.penDown then
          (b.lineTo b.state.posX b.state.posY toX toY).updateBounds toX toY
        else b
      { b1 with state := { b1.state with posX := toX, posY := toY } }
  | .pushLoc =>
      { b with state := { b.state with
          positions := (b.state.posX, b.state.posY) :: b.state.positions } }
  | .popLoc =>
      match b.state.positions with
      | [] => b
      | (x, y) :: rest =>
          { b with state := { b.state with posX := x, posY := y, positions := rest } }
  | .pushRot =>
      { b with state := { b.state with
          directions := b.state.direction :: b.state.directions } }
  | .popRot =>
      match b.state.directions with
      | [] => b
      | d :: rest =>
          { b with state := { b.state with direction := d, directions := rest } }
  | .go x y =>
      BuiltTurtle.updateBounds
        { b with state := { b.state with posX := x, posY := y } } x y
  | .goX x =>
      BuiltTurtle.updateBounds
        { b with state := { b.state with posX := x } } x b.state.posY
  | .goY y =>
      BuiltTurtle.updateBounds
        { b with state := { b.state with posY := y } } b.state.posX y
  | .penWidth w => { b with state := { b.state with penWidth := w } }
  | .penColor cr cg cb =>
      { b with state := { b.state with penColor := (cr, cg, cb) } }

/-- The command loop of BuiltTurtle::process_turtle, folded from an arbitrary
intermediate state. -/
def runFrom (b : BuiltTurtle) (cmds : List Command) : BuiltTurtle :=
  cmds.foldl BuiltTurtle.processCmd b

/-- BuiltTurtle::process_turtle (src/turtle/src/lib.rs:138-216): fold the
commands, then set the scene view box to the accumulated scene bounds. -/
def BuiltTurtle.processTurtle (b : BuiltTurtle) (cmds : List Command) : BuiltTurtle :=
  let b1 := runFrom b cmds
  { b1 with scene := { b1.scene with viewBox := b1.scene.bounds } }

/-- BuiltTurtle::from_ast (src/turtle/src/lib.rs:110-126). -/
def BuiltTurtle.fromAst (cmds : List Command) : BuiltTurtle :=
  BuiltTurtle.processTurtle BuiltTurtle.new cmds

/-! ### Arithmetic facts about the truncated remainder and heading normalization -/

lemma fTrunc_of_nonneg {x : ℝ} (h : 0 ≤ x) : fTrunc x = ⌊x⌋ := if_pos h

lemma fTrunc_of_neg {x : ℝ} (h : x < 0) : fTrunc x = ⌈x⌉ := if_neg (not_le.mpr h)

lemma fmod_nonneg_mem {x y : ℝ} (hx : 0 ≤ x) (hy : 0 < y) :
    0 ≤ fmod x y ∧ fmod x y < y := by
  have hxy : 0 ≤ x / y := div_nonneg hx hy.le
  have hkey : fmod x y = y * Int.fract (x / y) := by
    rw [fmod, fTrunc_of_nonneg hxy, Int.fract, mul_sub]
    congr 1
    field_simp
  constructor
  · rw [hkey]
    exact mul_nonneg hy.le (Int.fract_nonneg _)
  · rw [hkey]
    calc y * Int.fract (x / y) < y * 1 :=
          mul_lt_mul_of_pos_left (Int.fract_lt_one _) hy
      _ = y := mul_one y

lemma fmod_neg_mem {x y : ℝ} (hx : x < 0) (hy : 0 < y) :
    -y < fmod x y ∧ fmod x y ≤ 0 := by
  have hxy : x / y < 0 := div_neg_of_neg_of_pos hx hy
  rw [fmod, fTrunc_of_neg hxy]
  have h1 : x / y ≤ (⌈x / y⌉ : ℝ) := Int.le_ceil _
  have h2 : (⌈x / y⌉ : ℝ) < x / y + 1 := Int.ceil_lt_add_one _
  have hmul : y * (x / y) = x := by field_simp
  have h3 : y * ((⌈x / y⌉ : ℝ)) < y * (x / y + 1) := mul_lt_mul_of_pos_left h2 hy
  have h4 : y * (x / y) ≤ y * ((⌈x / y⌉ : ℝ)) := mul_le_mul_of_nonneg_left h1 hy.le
  rw [mul_add, hmul, mul_one] at h3
  rw [hmul] at h4
  constructor <;> linarith

lemma normalizeHeading_mem (d : ℝ) :
    0 ≤ normalizeHeading d ∧ normalizeHeading d < 360 := by
  have h360 : (0 : ℝ) < 360 := by norm_num
  have h1 : -360 < fmod d 360 := by
    rcases le_or_lt 0 d with hd | hd
    · have := (fmod_nonneg_mem hd h360).1
      linarith
    · exact (fmod_neg_mem hd h360).1
  simp only [normalizeHeading]
  exact fmod_nonneg_mem (by linarith) h360

lemma normalizeHeading_sub_intmul (x : ℝ) :
    ∃ k : ℤ, normalizeHeading x = x - 360 * k := by
  refine ⟨fTrunc (x / 360) + fTrunc ((fmod x 360 + 360) / 360) - 1, ?_⟩
  simp only [normalizeHeading, fmod]
  push_cast
  ring

lemma eq_of_sub_eq_intmul_360 {a b : ℝ} (k : ℤ) (ha : 0 ≤ a) (ha2 : a < 360)
    (hb : 0 ≤ b) (hb2 : b < 360) (h : a - b = 360 * k) : a = b := by
  have hk1 : (-1 : ℝ) < (k : ℝ) := by linarith
  have hk2 : ((k : ℝ)) < 1 := by linarith
  have hk1z : (-1 : ℤ) < k := by exact_mod_cast hk1
  have hk2z : k < 1 := by exact_mod_cast hk2
  have hk0 : k = 0 := by omega
  rw [hk0] at h
  push_cast at h
  linarith

lemma normalizeHeading_add_360 (x : ℝ) :
    normalizeHeading (x + 360) = normalizeHeading x := by
  obtain ⟨k1, h1⟩ := normalizeHeading_sub_intmul (x + 360)
  obtain ⟨k2, h2⟩ := normalizeHeading_sub_intmul x
  have m1 := normalizeHeading_mem (x + 360)
  have m2 := normalizeHeading_mem x
  refine eq_of_sub_eq_intmul_360 (k2 - k1 + 1) m1.1 m1.2 m2.1 m2.2 ?_
  rw [h1, h2]
  push_cast
  ring

/-- C3: the heading normalization used by the `Turn` and `Direction` handlers,
`((d % 360) + 360) % 360` with the truncated float remainder, yields a value
in `[0, 360)` for every input (negatives included); moreover for all `h` and
`e`, `normalizeHeading (normalizeHeading h + e)` lies in `[0, 360)` and is
invariant under adding `360` to `e`. -/
theorem c3_heading_normalization :
    (∀ (b : BuiltTurtle) (d : ℝ),
        (b.processCmd (Command.turn d)).state.direction
            = normalizeHeading (b.state.direction + d) ∧
        (b.processCmd (Command.direction d)).state.direction = normalizeHeading d) ∧
    (∀ d : ℝ, 0 ≤ normalizeHeading d ∧ normalizeHeading d < 360) ∧
    (∀ h e : ℝ,
        (0 ≤ normalizeHeading (normalizeHeading h + e) ∧
          normalizeHeading (normalizeHeading h + e) < 360) ∧
        normalizeHeading (normalizeHeading h + (e + 360))
            = normalizeHeading (normalizeHeading h + e)) := by
  refine ⟨fun b d => ⟨rfl, rfl⟩, normalizeHeading_mem, fun h e => ⟨normalizeHeading_mem _, ?_⟩⟩
  rw [show normalizeHeading h + (e + 360) = (normalizeHeading h + e) + 360 by ring]
  exact normalizeHeading_add_360 _

/-- C7: for every value of the flag set, the Display rendering lists the names
of exactly the triggered flags, in the fixed canonical order (unhandled
command, poploc on empty stack, poprot on empty stack), separated by a
comma-space, and is the empty string when no flag is set. -/
theorem c7_display_rendering (f : BuildResultFlags) :
    f.fmt = canonicalRendering f := by
  rcases f with ⟨u, l, r⟩
  cases u <;> cases l <;> cases r <;> rfl

/-! ### Diagnostic flags across interpretation -/

lemma processCmd_resultFlags (b : BuiltTurtle) (c : Command) :
    (b.processCmd c).resultFlags = b.resultFlags ∨
      (b.processCmd c).resultFlags = BuildResultFlags.empty := by
  cases c
  case reset => exact Or.inr rfl
  case move u =>
    left
    by_cases h : b.state.penDown <;>
      simp [BuiltTurtle.processCmd, h, BuiltTurtle.updateBounds, BuiltTurtle.lineTo]
  case popLoc =>
    left
    rcases hp : b.state.positions with _ | ⟨⟨x, y⟩, rest⟩ <;>
      simp [BuiltTurtle.processCmd, hp]
  case popRot =>
    left
    rcases hp : b.state.directions with _ | ⟨d, rest⟩ <;>
      simp [BuiltTurtle.processCmd, hp]
  all_goals exact Or.inl rfl

lemma runFrom_resultFlags_empty (cmds : List Command) (b : BuiltTurtle)
    (h : b.resultFlags = BuildResultFlags.empty) :
    (runFrom b cmds).resultFlags = BuildResultFlags.empty := by
  induction cmds generalizing b with
  | nil => exact h
  | cons c cs ih =>
      rcases processCmd_resultFlags b c with hs | hs
      · exact ih _ (hs.trans h)
      · exact ih _ hs

/-- C8: no interpreter code path ever sets a diagnostic flag: every command
either leaves the flag set unchanged or (Reset) clears it, and the flag set
returned by from_ast is empty for every command sequence. -/
theorem c8_flags_never_set :
    (∀ (b : BuiltTurtle) (c : Command),
        (b.processCmd c).resultFlags = b.resultFlags ∨
          (b.processCmd c).resultFlags = BuildResultFlags.empty) ∧
    (∀ b : BuiltTurtle,
        (b.processCmd Command.reset).resultFlags = BuildResultFlags.empty) ∧
    (∀ cmds : List Command,
        (BuiltTurtle.fromAst cmds).resultFlags = BuildResultFlags.empty) :=
  ⟨processCmd_resultFlags, fun _ => rfl,
   fun cmds => runFrom_resultFlags_empty cmds BuiltTurtle.new rfl⟩

/-- C1 counterexample: interpreting a single PopLoc on the empty location
stack leaves the flag set empty; it does not set POPLOC_ON_EMPTY_STACK (the
underflow is only reported by a stderr print). -/
theorem c1_counterexample :
    (BuiltTurtle.fromAst [Command.popLoc]).resultFlags = BuildResultFlags.empty ∧
    BuildResultFlags.empty ≠
      { errUnhandledCommand := false, errPoplocEmptyStack := true,
        errPoprotEmptyStack := false } :=
  ⟨rfl, by decide⟩

/-- C1 (amended): a PopLoc interpreted with an empty location stack leaves the
turtle position unchanged and leaves the diagnostic flags exactly as they
were (in particular it does not set POPLOC_ON_EMPTY_STACK; the underflow is
only printed to stderr). -/
theorem c1_poploc_underflow (b : BuiltTurtle) (h : b.state.positions = []) :
    (b.processCmd Command.popLoc).state.posX = b.state.posX ∧
    (b.processCmd Command.popLoc).state.posY = b.state.posY ∧
    (b.processCmd Command.popLoc).resultFlags = b.resultFlags := by
  simp [BuiltTurtle.processCmd, h]

/-- Witness for C1 (amended): the initial state has an empty location stack,
and the conclusion holds there. -/
theorem c1_witness :
    BuiltTurtle.new.state.positions = [] ∧
    ((BuiltTurtle.new.processCmd Command.popLoc).state.posX
        = BuiltTurtle.new.state.posX ∧
      (BuiltTurtle.new.processCmd Command.popLoc).state.posY
        = BuiltTurtle.new.state.posY ∧
      (BuiltTurtle.new.processCmd Command.popLoc).resultFlags
        = BuiltTurtle.new.resultFlags) :=
  ⟨rfl, c1_poploc_underflow BuiltTurtle.new rfl⟩

/-- C9: when from_ast returns, the scene view box equals the scene bounds:
the view box is overwritten with the accumulated bounds as the final step of
process_turtle. -/
theorem c9_viewbox_eq_bounds (cmds : List Command) :
    (BuiltTurtle.fromAst cmds).scene.viewBox
        = (BuiltTurtle.fromAst cmds).scene.bounds :=
  rfl

/-! ### Rectangle lemmas and bounds monotonicity -/

lemma Rect.subset_refl (r : Rect) : r.subset r :=
  ⟨le_refl _, le_refl _, le_refl _, le_refl _⟩

lemma Rect.subset_trans {r s t : Rect} (h1 : r.subset s) (h2 : s.subset t) :
    r.subset t :=
  ⟨le_trans h2.1 h1.1, le_trans h2.2.1 h1.2.1,
   le_trans h1.2.2.1 h2.2.2.1, le_trans h1.2.2.2 h2.2.2.2⟩

lemma Rect.subset_unionPoint (r : Rect) (x y : ℝ) : r.subset (r.unionPoint x y) :=
  ⟨min_le_left _ _, min_le_left _ _, le_max_left _ _, le_max_left _ _⟩

lemma Rect.subset_unionRect_left (r s : Rect) : r.subset (r.unionRect s) :=
  ⟨min_le_left _ _, min_le_left _ _, le_max_left _ _, le_max_left _ _⟩

lemma Rect.subset_unionRect_right (r s : Rect) : s.subset (r.unionRect s) :=
  ⟨min_le_right _ _, min_le_right _ _, le_max_right _ _, le_max_right _ _⟩

lemma Rect.unionPoint_containsPoint (r : Rect) (x y : ℝ) :
    (r.unionPoint x y).containsPoint x y :=
  ⟨min_le_right _ _, le_max_right _ _, min_le_right _ _, le_max_right _ _⟩

lemma Rect.containsPoint_of_subset {r s : Rect} {x y : ℝ} (h : r.subset s)
    (hp : r.containsPoint x y) : s.containsPoint x y :=
  ⟨le_trans h.1 hp.1, le_trans hp.2.1 h.2.2.1,
   le_trans h.2.1 hp.2.2.1, le_trans hp.2.2.2 h.2.2.2⟩

lemma pushPaint_snd (s : Scene) (p : Paint) :
    (s.pushPaint p).2 = s ∨
      (s.pushPaint p).2 = { s with paints := s.paints ++ [p] } := by
  cases hidx : s.paints.findIdx? (fun q => decide (q = p)) with
  | none => right; simp [Scene.pushPaint, hidx]
  | some i => left; simp [Scene.pushPaint, hidx]

lemma pushPaint_bounds (s : Scene) (p : Paint) :
    (s.pushPaint p).2.bounds = s.bounds := by
  rcases pushPaint_snd s p with h | h <;> rw [h]

lemma pushPaint_objects (s : Scene) (p : Paint) :
    (s.pushPaint p).2.objects = s.objects := by
  rcases pushPaint_snd s p with h | h <;> rw [h]

lemma updateBounds_scene_bounds_subset (b : BuiltTurtle) (x y : ℝ) :
    b.scene.bounds.subset (b.updateBounds x y).scene.bounds :=
  Rect.subset_unionRect_left _ _

lemma lineTo_scene_bounds_subset (b : BuiltTurtle) (x1 y1 x2 y2 : ℝ) :
    b.scene.bounds.subset (b.lineTo x1 y1 x2 y2).scene.bounds := by
  have hb : (b.lineTo x1 y1 x2 y2).scene.bounds
      = ((b.scene.pushPaint (Paint.fromPencolor b.state.penColor)).2.bounds).unionRect
          (outlineBounds
            (strokeQuad x1 y1 x2 y2 (max b.state.penWidth HAIRLINE_STROKE_WIDTH))) := rfl
  rw [hb, pushPaint_bounds]
  exact Rect.subset_unionRect_left _ _

lemma processCmd_bounds_subset (b : BuiltTurtle) (c : Command)
    (h : c.isReset = false) :
    b.scene.bounds.subset (b.processCmd c).scene.bounds := by
  cases c
  case reset => simp [Command.isReset] at h
  case move u =>
    simp only [BuiltTurtle.processCmd]
    by_cases hp : b.state.penDown
    · simp only [hp, if_true]
      exact Rect.subset_trans (lineTo_scene_bounds_subset _ _ _ _ _)
        (updateBounds_scene_bounds_subset _ _ _)
    · simp only [hp, if_false]
      exact Rect.subset_refl _
  case popLoc =>
    rcases hp : b.state.positions with _ | ⟨⟨x, y⟩, rest⟩ <;>
      simp only [BuiltTurtle.processCmd, hp] <;> exact Rect.subset_refl _
  case popRot =>
    rcases hp : b.state.directions with _ | ⟨d, rest⟩ <;>
      simp only [BuiltTurtle.processCmd, hp] <;> exact Rect.subset_refl _
  case go x y => exact updateBounds_scene_bounds_subset _ _ _
  case goX x => exact updateBounds_scene_bounds_subset _ _ _
  case goY y => exact updateBounds_scene_bounds_subset _ _ _
  all_goals exact Rect.subset_refl _

lemma runFrom_bounds_subset (cmds : List Command) (b : BuiltTurtle)
    (h : ∀ c ∈ cmds, c.isReset = false) :
    b.scene.bounds.subset (runFrom b cmds).scene.bounds := by
  induction cmds generalizing b with
  | nil => exact Rect.subset_refl _
  | cons c cs ih =>
      exact Rect.subset_trans
        (processCmd_bounds_subset b c (h c (List.mem_cons_self _ _)))
        (ih (b.processCmd c) (fun x hx => h x (List.mem_cons_of_mem _ hx)))

/-- C6: for every command sequence without Reset, the scene bounding
rectangle is monotonically non-decreasing under rectangle inclusion: each
command leaves the bounds unchanged or grows them, and hence any such
sequence only grows them. -/
theorem c6_bounds_monotone :
    (∀ (b : BuiltTurtle) (c : Command), c.isReset = false →
        b.scene.bounds.subset (b.processCmd c).scene.bounds) ∧
    (∀ (cmds : List Command) (b : BuiltTurtle), (∀ c ∈ cmds, c.isReset = false) →
        b.scene.bounds.subset (runFrom b cmds).scene.bounds) :=
  ⟨fun b c h => processCmd_bounds_subset b c h,
   fun cmds b h => runFrom_bounds_subset cmds b h⟩

/-- Witness for C6: the command `go 1 2` is not a Reset, and both the
per-command and the whole-sequence monotonicity conclusions hold for it from
the initial state. -/
theorem c6_witness :
    (Command.isReset (Command.go 1 2) = false ∧
      BuiltTurtle.new.scene.bounds.subset
        ((BuiltTurtle.new.processCmd (Command.go 1 2)).scene.bounds)) ∧
    ((∀ c ∈ [Command.go 1 2], c.isReset = false) ∧
      BuiltTurtle.new.scene.bounds.subset
        ((runFrom BuiltTurtle.new [Command.go 1 2]).scene.bounds)) :=
  ⟨⟨rfl, c6_bounds_monotone.1 BuiltTurtle.new (Command.go 1 2) rfl⟩,
   ⟨by simp [Command.isReset],
    c6_bounds_monotone.2 [Command.go 1 2] BuiltTurtle.new
      (by simp [Command.isReset])⟩⟩

/-! ### Location-stack balance -/

lemma runFrom_nil (b : BuiltTurtle) : runFrom b [] = b := rfl

lemma runFrom_cons (b : BuiltTurtle) (c : Command) (cs : List Command) :
    runFrom b (c :: cs) = runFrom (b.processCmd c) cs := rfl

lemma runFrom_append (b : BuiltTurtle) (l1 l2 : List Command) :
    runFrom b (l1 ++ l2) = runFrom (runFrom b l1) l2 := by
  simp [runFrom]

lemma toRadians_zero : toRadians 0 = 0 := by
  simp [toRadians]

lemma runFrom_pushLoc_replicate (n : Nat) (b : BuiltTurtle) :
    runFrom b (List.replicate n Command.pushLoc) =
      { b with state := { b.state with
          positions := List.replicate n (b.state.posX, b.state.posY)
            ++ b.state.positions } } := by
  induction n generalizing b with
  | zero => simp [runFrom]
  | succ n ih =>
      rw [List.replicate_succ, runFrom_cons, ih]
      simp [BuiltTurtle.processCmd, List.replicate_succ', List.append_assoc]

lemma runFrom_popLoc_replicate (n : Nat) (b : BuiltTurtle) (x y : ℝ)
    (tl : List (ℝ × ℝ))
    (h : b.state.positions = List.replicate (n + 1) (x, y) ++ tl) :
    runFrom b (List.replicate (n + 1) Command.popLoc) =
      { b with state := { b.state with posX := x, posY := y, positions := tl } } := by
  induction n generalizing b with
  | zero =>
      have hcons : b.state.positions = (x, y) :: tl := by
        rw [h, List.replicate_succ]
        rfl
      simp [runFrom, BuiltTurtle.processCmd, hcons]
  | succ n ih =>
      have hcons : b.state.positions
          = (x, y) :: (List.replicate (n + 1) (x, y) ++ tl) := by
        rw [h, List.replicate_succ]
        rfl
      have hstep : b.processCmd Command.popLoc =
          { b with state := { b.state with
              posX := x, posY := y,
              positions := List.replicate (n + 1) (x, y) ++ tl } } := by
        simp [BuiltTurtle.processCmd, hcons]
      rw [List.replicate_succ, runFrom_cons, hstep, ih _ rfl]

lemma push_pop_balance_fields (n : Nat) (b : BuiltTurtle) :
    (runFrom b (List.replicate n Command.pushLoc
        ++ List.replicate n Command.popLoc)).state.posX = b.state.posX ∧
    (runFrom b (List.replicate n Command.pushLoc
        ++ List.replicate n Command.popLoc)).state.posY = b.state.posY ∧
    (runFrom b (List.replicate n Command.pushLoc
        ++ List.replicate n Command.popLoc)).resultFlags = b.resultFlags := by
  cases n with
  | zero => exact ⟨rfl, rfl, rfl⟩
  | succ n =>
      rw [runFrom_append, runFrom_pushLoc_replicate,
        runFrom_popLoc_replicate n _ b.state.posX b.state.posY b.state.positions rfl]
      exact ⟨rfl, rfl, rfl⟩

/-- C5: interpreting N PushLoc commands followed by N PopLoc commands from any
state restores the position to what it was before the first PushLoc and
leaves the diagnostic flags unchanged (in particular no POPLOC_ON_EMPTY_STACK
is raised); and concretely the program `pushloc move 5 poploc move 5` ends at
(5, 0), not (10, 0). -/
theorem c5_stack_balance :
    (∀ (n : Nat) (b : BuiltTurtle),
      (runFrom b (List.replicate n Command.pushLoc
          ++ List.replicate n Command.popLoc)).state.posX = b.state.posX ∧
      (runFrom b (List.replicate n Command.pushLoc
          ++ List.replicate n Command.popLoc)).state.posY = b.state.posY ∧
      (runFrom b (List.replicate n Command.pushLoc
          ++ List.replicate n Command.popLoc)).resultFlags = b.resultFlags) ∧
    ((BuiltTurtle.fromAst
        [Command.pushLoc, Command.move 5, Command.popLoc,
          Command.move 5]).state.posX = 5 ∧
      (BuiltTurtle.fromAst
        [Command.pushLoc, Command.move 5, Command.popLoc,
          Command.move 5]).state.posY = 0) := by
  refine ⟨push_pop_balance_fields, ?_, ?_⟩ <;>
    norm_num [BuiltTurtle.fromAst, BuiltTurtle.processTurtle, runFrom,
      BuiltTurtle.processCmd, BuiltTurtle.new, TurtleState.new, toRadians]

/-! ### Stroke geometry of pen-down moves -/

lemma sqrt_hundred : Real.sqrt 100 = 10 := by
  rw [show (100 : ℝ) = 10 ^ 2 by norm_num]
  exact Real.sqrt_sq (by norm_num)

lemma max_one_hairline : max (1 : ℝ) HAIRLINE_STROKE_WIDTH = 1 :=
  max_eq_left (by norm_num [HAIRLINE_STROKE_WIDTH])

lemma strokeQuad_horiz_0_10 :
    strokeQuad 0 0 10 0 1
      = [(0, 1 / 2), (10, 1 / 2), (10, -(1 / 2)), (0, -(1 / 2))] := by
  norm_num [strokeQuad, sqrt_hundred]

lemma strokeQuad_horiz_10_20 :
    strokeQuad 10 0 20 0 1
      = [(10, 1 / 2), (20, 1 / 2), (20, -(1 / 2)), (10, -(1 / 2))] := by
  norm_num [strokeQuad, sqrt_hundred]

/-- C2: a Move command sets the position to
`position + dist * (cos heading_rad, sin heading_rad)`; with the pen down it
appends exactly one PathObject, the stroked segment from the old position to
the target, and the new scene bounds contain the target; with the pen up the
scene is untouched.  Concretely, `penup move 10 pendown move 10` produces
exactly one PathObject, the stroked segment spanning (10,0)-(20,0). -/
theorem c2_move_semantics :
    (∀ (b : BuiltTurtle) (dist : ℝ),
      (b.processCmd (Command.move dist)).state.posX
          = b.state.posX + dist * Real.cos (toRadians b.state.direction) ∧
      (b.processCmd (Command.move dist)).state.posY
          = b.state.posY + dist * Real.sin (toRadians b.state.direction) ∧
      (if b.state.penDown = true then
        (b.processCmd (Command.move dist)).scene.objects = b.scene.objects ++
            [{ outline := strokeQuad b.state.posX b.state.posY
                  (b.state.posX + dist * Real.cos (toRadians b.state.direction))
                  (b.state.posY + dist * Real.sin (toRadians b.state.direction))
                  (max b.state.penWidth HAIRLINE_STROKE_WIDTH),
               paint := (b.scene.pushPaint (Paint.fromPencolor b.state.penColor)).1,
               id := b.idCounter + 1, kind := PathObjectKind.stroke }] ∧
          (b.processCmd (Command.move dist)).scene.bounds.containsPoint
            (b.state.posX + dist * Real.cos (toRadians b.state.direction))
            (b.state.posY + dist * Real.sin (toRadians b.state.direction))
      else
        (b.processCmd (Command.move dist)).scene.objects = b.scene.objects ∧
        (b.processCmd (Command.move dist)).scene.bounds = b.scene.bounds)) ∧
    (BuiltTurtle.fromAst
        [Command.penUp, Command.move 10, Command.penDown,
          Command.move 10]).scene.objects.map PathObject.outline
      = [strokeQuad 10 0 20 0 1] := by
  constructor
  · intro b dist
    refine ⟨rfl, rfl, ?_⟩
    by_cases hp : b.state.penDown = true
    · rw [if_pos hp]
      constructor
      · simp [BuiltTurtle.processCmd, hp, BuiltTurtle.updateBounds,
          BuiltTurtle.lineTo, pushPaint_objects]
      · simp only [BuiltTurtle.processCmd, hp, if_true]
        exact Rect.containsPoint_of_subset (Rect.subset_unionRect_right _ _)
          (Rect.unionPoint_containsPoint _ _ _)
    · rw [if_neg hp]
      simp [BuiltTurtle.processCmd, hp]
  · norm_num [BuiltTurtle.fromAst, BuiltTurtle.processTurtle, runFrom,
      BuiltTurtle.processCmd, BuiltTurtle.new, TurtleState.new, Scene.new,
      BuiltTurtle.updateBounds, BuiltTurtle.lineTo, Scene.pushPaint,
      toRadians, max_one_hairline, strokeQuad, sqrt_hundred,
      Rect.unionPoint, Rect.unionRect, Rect.zero, outlineBounds,
      Paint.fromPencolor, Paint.fromRgb]

lemma fromAst_pendown_move10_outlines :
    (BuiltTurtle.fromAst [Command.penDown, Command.move 10]).scene.objects.map
        PathObject.outline = [strokeQuad 0 0 10 0 1] := by
  norm_num [BuiltTurtle.fromAst, BuiltTurtle.processTurtle, runFrom,
    BuiltTurtle.processCmd, BuiltTurtle.new, TurtleState.new, Scene.new,
    BuiltTurtle.updateBounds, BuiltTurtle.lineTo, Scene.pushPaint,
    toRadians, max_one_hairline, strokeQuad, sqrt_hundred,
    Rect.unionPoint, Rect.unionRect, Rect.zero, outlineBounds,
    Paint.fromPencolor, Paint.fromRgb]

lemma fromAst_pendown_move10_bounds :
    (BuiltTurtle.fromAst [Command.penDown, Command.move 10]).scene.bounds
        = ⟨0, -(1 / 2), 10, 1 / 2⟩ := by
  norm_num [BuiltTurtle.fromAst, BuiltTurtle.processTurtle, runFrom,
    BuiltTurtle.processCmd, BuiltTurtle.new, TurtleState.new, Scene.new,
    BuiltTurtle.updateBounds, BuiltTurtle.lineTo, Scene.pushPaint,
    toRadians, max_one_hairline, strokeQuad, sqrt_hundred,
    Rect.unionPoint, Rect.unionRect, Rect.zero, outlineBounds,
    Paint.fromPencolor, Paint.fromRgb]

/-- C4 counterexample: the program `pendown move 10` strokes at effective
width `max (pen width 1.0) hairline = 1.0`, not at the hairline minimum: its
scene bounds are the segment rectangle inflated by 1/2, not by half the
hairline width, and its single outline is not the hairline-width
quadrilateral. -/
theorem c4_counterexample :
    (BuiltTurtle.fromAst [Command.penDown, Command.move 10]).scene.bounds
        = ⟨0, -(1 / 2), 10, 1 / 2⟩ ∧
    (BuiltTurtle.fromAst [Command.penDown, Command.move 10]).scene.bounds
        ≠ ⟨0, -(HAIRLINE_STROKE_WIDTH / 2), 10, HAIRLINE_STROKE_WIDTH / 2⟩ ∧
    (BuiltTurtle.fromAst [Command.penDown, Command.move 10]).scene.objects.map
        PathObject.outline ≠ [strokeQuad 0 0 10 0 HAIRLINE_STROKE_WIDTH] := by
  refine ⟨fromAst_pendown_move10_bounds, ?_, ?_⟩
  · rw [fromAst_pendown_move10_bounds]
    norm_num [Rect.mk.injEq, HAIRLINE_STROKE_WIDTH]
  · rw [fromAst_pendown_move10_outlines, strokeQuad_horiz_0_10]
    norm_num [strokeQuad, HAIRLINE_STROKE_WIDTH, sqrt_hundred]

/-- C4 (amended): the program `pendown move 10` starting from the default
state produces exactly one PathObject, the stroked outline of the horizontal
segment (0,0)-(10,0) at effective width `max (default pen width 1.0) hairline
= 1.0`, and the scene bounds are the rectangle covering (0,0)-(10,0) inflated
perpendicular to the segment by half that width. -/
theorem c4_amended_stroke :
    (BuiltTurtle.fromAst [Command.penDown, Command.move 10]).scene.objects.map
        PathObject.outline = [strokeQuad 0 0 10 0 1] ∧
    max (1 : ℝ) HAIRLINE_STROKE_WIDTH = 1 ∧
    strokeQuad 0 0 10 0 1
        = [(0, 1 / 2), (10, 1 / 2), (10, -(1 / 2)), (0, -(1 / 2))] ∧
    (BuiltTurtle.fromAst [Command.penDown, Command.move 10]).scene.bounds
        = ⟨0, -(1 / 2), 10, 1 / 2⟩ :=
  ⟨fromAst_pendown_move10_outlines, max_one_hairline, strokeQuad_horiz_0_10,
    fromAst_pendown_move10_bounds⟩

/-! ### Identifier counter across Reset -/

lemma processCmd_counter_objects (b : BuiltTurtle) (c : Command)
    (hc : c.isReset = false)
    (h : b.idCounter = b.scene.objects.length) :
    (b.processCmd c).idCounter = (b.processCmd c).scene.objects.length := by
  cases c
  case reset => simp [Command.isReset] at hc
  case move u =>
    by_cases hp : b.state.penDown = true
    · simp [BuiltTurtle.processCmd, hp, BuiltTurtle.updateBounds,
        BuiltTurtle.lineTo, pushPaint_objects, h]
    · simp [BuiltTurtle.processCmd, hp, h]
  case popLoc =>
    rcases hp : b.state.positions with _ | ⟨⟨x, y⟩, rest⟩ <;>
      simp [BuiltTurtle.processCmd, hp, h]
  case popRot =>
    rcases hp : b.state.directions with _ | ⟨d, rest⟩ <;>
      simp [BuiltTurtle.processCmd, hp, h]
  all_goals exact h

lemma runFrom_counter_objects (p : List Command) (b : BuiltTurtle)
    (hc : ∀ c ∈ p, c.isReset = false)
    (h : b.idCounter = b.scene.objects.length) :
    (runFrom b p).idCounter = (runFrom b p).scene.objects.length := by
  induction p generalizing b with
  | nil => exact h
  | cons c cs ih =>
      exact ih _ (fun x hx => hc x (List.mem_cons_of_mem _ hx))
        (processCmd_counter_objects b c (hc c (List.mem_cons_self _ _)) h)

lemma run_after_reset_ids (p : List Command) (k : Nat)
    (hc : ∀ c ∈ p, c.isReset = false)
    (hk : (runFrom BuiltTurtle.new p).scene.objects.length = k) :
    (BuiltTurtle.fromAst
        (p ++ [Command.reset, Command.penDown, Command.move 1])).scene.objects.map
      PathObject.id = [k + 1] := by
  have hcnt : (runFrom BuiltTurtle.new p).idCounter = k := by
    rw [runFrom_counter_objects p BuiltTurtle.new hc rfl, hk]
  have hsplit : (BuiltTurtle.fromAst
        (p ++ [Command.reset, Command.penDown, Command.move 1])).scene.objects
      = (runFrom (runFrom BuiltTurtle.new p)
          [Command.reset, Command.penDown, Command.move 1]).scene.objects := by
    show (runFrom BuiltTurtle.new
        (p ++ [Command.reset, Command.penDown, Command.move 1])).scene.objects = _
    rw [runFrom_append]
  rw [hsplit]
  have hcnt2 : (List.foldl BuiltTurtle.processCmd BuiltTurtle.new p).idCounter = k :=
    hcnt
  simp [runFrom, BuiltTurtle.processCmd, BuiltTurtle.updateBounds,
    BuiltTurtle.lineTo, Scene.pushPaint, Scene.new, TurtleState.new, hcnt2]

/-- C10: Reset replaces the turtle state, the scene and the diagnostic flags
but leaves the path-object identifier counter alone: after a program that
created k PathObjects (none of its commands being Reset), the first
PathObject created after a Reset receives identifier k + 1, not 1. -/
theorem c10_reset_keeps_id_counter :
    (∀ b : BuiltTurtle,
        (b.processCmd Command.reset).idCounter = b.idCounter ∧
        (b.processCmd Command.reset).scene.objects = [] ∧
        (b.processCmd Command.reset).state = TurtleState.new ∧
        (b.processCmd Command.reset).resultFlags = BuildResultFlags.empty) ∧
    (∀ (p : List Command) (k : Nat), (∀ c ∈ p, c.isReset = false) →
        (runFrom BuiltTurtle.new p).scene.objects.length = k →
        (BuiltTurtle.fromAst
            (p ++ [Command.reset, Command.penDown, Command.move 1])).scene.objects.map
          PathObject.id = [k + 1]) :=
  ⟨fun _ => ⟨rfl, rfl, rfl, rfl⟩, run_after_reset_ids⟩

/-- Witness for C10: the program `pendown move 1` creates one PathObject, and
after appending `reset pendown move 1` the object created after the Reset
carries identifier 2, not 1. -/
theorem c10_witness :
    (∀ c ∈ [Command.penDown, Command.move 1], c.isReset = false) ∧
    (runFrom BuiltTurtle.new
        [Command.penDown, Command.move 1]).scene.objects.length = 1 ∧
    (BuiltTurtle.fromAst
        ([Command.penDown, Command.move 1]
          ++ [Command.reset, Command.penDown, Command.move 1])).scene.objects.map
      PathObject.id = [1 + 1] :=
  ⟨by simp [Command.isReset],
   by simp [runFrom, BuiltTurtle.processCmd, BuiltTurtle.updateBounds,
      BuiltTurtle.lineTo, Scene.pushPaint, Scene.new, BuiltTurtle.new,
      TurtleState.new],
   c10_reset_keeps_id_counter.2 [Command.penDown, Command.move 1] 1
     (by simp [Command.isReset])
     (by simp [runFrom, BuiltTurtle.processCmd, BuiltTurtle.updateBounds,
        BuiltTurtle.lineTo, Scene.pushPaint, Scene.new, BuiltTurtle.new,
        TurtleState.new])⟩

end
